import Mathlib

/-!
A shallow embedding of the clastix/talos-csr-signer core in Lean 4.

The program is Go; its own code (the `Server.Certificate` gRPC handler in
pkg/server, the startup `RunE` in cmd/main.go, and the `generateServerCert`
bootstrap routine) is translated here definition by definition.  Behaviour of
the Go standard library and of gRPC (`pem.Decode`, `x509.ParseCertificateRequest`,
`x509.CreateCertificate`, `crypto/rand`, metadata transport, the wall clock)
is not code of this repository: it is abstracted as an explicit environment
record `X509Env` of oracle functions, and theorems quantify over those oracles,
adding a documented library contract as a hypothesis only where a claim needs
one (for example, `rand.Int(reader, max)` returns a value `< max`).
Byte strings are `List Nat`; Go strings that the program compares are `String`
(Go string comparison is byte-for-byte, as is `String` equality here).
-/

namespace TalosCsrSigner

/-- Raw byte strings (`[]byte` in Go). -/
abbrev Bytes := List Nat

/-- A decoded PEM block (`pem.Block`), restricted to the two fields the
program reads: the declared type string and the payload bytes. -/
structure PemBlock where
  type : String
  bytes : Bytes
deriving Repr, DecidableEq

/-- `pkix.Name`, restricted to the field the program logs and copies:
the common name.  The whole value is copied verbatim into the template. -/
structure PKIXName where
  commonName : String
deriving Repr, DecidableEq

/-- A parsed certificate signing request (`x509.CertificateRequest`),
restricted to the fields the handler reads.  `publicKey` is an abstract
handle standing for the type-erased `interface{}` public key value;
`ipAddresses` are `net.IP` byte strings. -/
structure CertificateRequestData where
  subject : PKIXName
  dnsNames : List String
  ipAddresses : List Bytes
  publicKey : Nat
deriving Repr, DecidableEq

/-- Extended key usages (`x509.ExtKeyUsage`); the program only ever uses
server authentication. -/
inductive ExtKeyUsage where
  | serverAuth
  | other (code : Nat)
deriving Repr, DecidableEq

/-- `x509.KeyUsageDigitalSignature` (Go value `1 << 0`). -/
def keyUsageDigitalSignature : Nat := 1

/-- `x509.KeyUsageKeyEncipherment` (Go value `1 << 2`). -/
def keyUsageKeyEncipherment : Nat := 4

/-- An `x509.Certificate` value, restricted to the template fields the
program sets and the parsed-CA fields it passes along.  Time instants are
naturals counting nanoseconds (Go `time.Duration` is nanoseconds).
Fields a Go composite literal leaves unset are the Go zero value
(`isCA = false`, empty lists, zero times). -/
structure CertificateData where
  serialNumber : Nat
  subject : PKIXName
  notBefore : Nat
  notAfter : Nat
  keyUsage : Nat
  extKeyUsage : List ExtKeyUsage
  basicConstraintsValid : Bool
  isCA : Bool
  dnsNames : List String
  ipAddresses : List Bytes
deriving Repr, DecidableEq

/-- gRPC incoming metadata (`metadata.MD`): a finite key/values map,
modelled as an association list. -/
abbrev MD := List (String × List String)

/-- `md.Get(key)`: the values stored under a key, `[]` when absent. -/
def mdGet (md : MD) (k : String) : List String :=
  match md.find? (fun p => p.1 = k) with
  | some p => p.2
  | none => []

/-- The environment of Go standard-library operations the program calls.
Each field is an oracle for one library function; theorems quantify over
the whole record so that nothing proved depends on a particular library
behaviour beyond stated, documented contracts. -/
structure X509Env where
  /-- `pem.Decode`: the first PEM block of the input, or `none`
  (the program discards the rest). -/
  pemDecode : Bytes → Option PemBlock
  /-- `x509.ParseCertificateRequest` on DER bytes; errors are their
  rendered message strings. -/
  parseCertificateRequest : Bytes → Except String CertificateRequestData
  /-- `csr.CheckSignature()`: verifies the CSR self-signature against its
  own embedded public key. -/
  checkSignature : CertificateRequestData → Except String Unit
  /-- `x509.ParseCertificate` on DER bytes. -/
  parseCertificate : Bytes → Except String CertificateData
  /-- `x509.CreateCertificate rand template parent publicKey privateKey`,
  returning DER bytes.  The template and parent are passed whole; the keys
  are abstract handles. -/
  createCertificate : CertificateData → CertificateData → Nat → Nat → Except String Bytes
  /-- `pem.EncodeToMemory` on a block. -/
  pemEncodeToMemory : PemBlock → Bytes
  /-- `rand.Int(rand.Reader, max)`: a random natural below the exclusive
  bound, or an entropy-source failure.  Library contract (assumed only
  where a claim needs it): a returned value is `< max`. -/
  randInt : Nat → Except String Nat
  /-- `x509.ParsePKCS8PrivateKey`; the key is an abstract handle. -/
  parsePKCS8PrivateKey : Bytes → Except String Nat
  /-- `x509.ParseECPrivateKey`. -/
  parseECPrivateKey : Bytes → Except String Nat
  /-- `x509.ParsePKCS1PrivateKey`. -/
  parsePKCS1PrivateKey : Bytes → Except String Nat
  /-- `net.ParseIP`: the parsed IP byte string, or `[]` for Go `nil`
  when the literal does not parse. -/
  parseIP : String → Bytes
  /-- `ecdsa.GenerateKey(elliptic.P256(), rand.Reader)`: a fresh key pair
  as (public handle, private handle), or a failure. -/
  ecdsaGenerateKey : Except String (Nat × Nat)
  /-- `x509.MarshalECPrivateKey`. -/
  marshalECPrivateKey : Nat → Except String Bytes
  /-- `tls.X509KeyPair(certChainPEM, keyPEM)`: an abstract handle for the
  resulting `tls.Certificate`, or a failure. -/
  x509KeyPair : Bytes → Bytes → Except String Nat

/-- gRPC status codes used by the program (`google.golang.org/grpc/codes`). -/
inductive Code where
  | Unauthenticated
  | InvalidArgument
  | Internal
deriving Repr, DecidableEq

/-- `status.Error(code, msg)`. -/
structure GrpcStatus where
  code : Code
  msg : String
deriving Repr, DecidableEq

/-- The `Server` struct of pkg/server: CA certificate PEM bytes, the
type-erased CA private key, and the configured shared secret token. -/
structure Server where
  caCert : Bytes
  caPrivateKey : Nat
  validToken : String
deriving Repr, DecidableEq

/-- The `CertificateRequest` protobuf message: `req.GetCsr()`. -/
structure CertificateRequestMsg where
  csr : Bytes
deriving Repr, DecidableEq

/-- The `CertificateResponse` protobuf message: CA bytes and signed leaf
certificate PEM bytes. -/
structure CertificateResponse where
  ca : Bytes
  crt : Bytes
deriving Repr, DecidableEq

/-- `generateSerialNumber` (pkg/server): `rand.Int(rand.Reader, 1 << 128)`. -/
def generateSerialNumber (env : X509Env) : Except String Nat :=
  env.randInt (2 ^ 128)

/-- One year in nanoseconds: `365 * 24 * time.Hour`. -/
def oneYear : Nat := 365 * 24 * 60 * 60 * 1000000000

/-- The certificate template the handler builds (pkg/server, the
`template := &x509.Certificate{...}` literal).  `now` is the wall-clock
reading of this call.  `isCA` is not set by the literal, hence the Go
zero value `false`. -/
def mkTemplate (csr : CertificateRequestData) (now serial : Nat) : CertificateData :=
  { serialNumber := serial
    subject := csr.subject
    notBefore := now
    notAfter := now + oneYear
    keyUsage := keyUsageDigitalSignature ||| keyUsageKeyEncipherment
    extKeyUsage := [.serverAuth]
    basicConstraintsValid := true
    isCA := false
    dnsNames := csr.dnsNames
    ipAddresses := csr.ipAddresses }

/-- The `Server.Certificate` RPC handler (pkg/server), translated
statement by statement; logging is elided.  `ctx` is `none` when
`metadata.FromIncomingContext` reports no metadata.  `now` is the
wall-clock reading for this call. -/
def Server.Certificate (env : X509Env) (now : Nat) (s : Server)
    (ctx : Option MD) (req : CertificateRequestMsg) :
    Except GrpcStatus CertificateResponse :=
  match ctx with
  | none => .error ⟨.Unauthenticated, "missing metadata"⟩
  | some md =>
    match mdGet md "token" with
    | [] => .error ⟨.Unauthenticated, "missing token"⟩
    | token :: _ =>
      if token ≠ s.validToken then
        .error ⟨.Unauthenticated, "invalid token"⟩
      else
        match env.pemDecode req.csr with
        | none => .error ⟨.InvalidArgument, "failed to decode PEM CSR"⟩
        | some block =>
          match env.parseCertificateRequest block.bytes with
          | .error e => .error ⟨.InvalidArgument, "failed to parse CSR: " ++ e⟩
          | .ok csr =>
            match env.checkSignature csr with
            | .error e => .error ⟨.InvalidArgument, "invalid CSR signature: " ++ e⟩
            | .ok _ =>
              match env.pemDecode s.caCert with
              | none => .error ⟨.Internal, "failed to decode CA certificate"⟩
              | some caBlock =>
                match env.parseCertificate caBlock.bytes with
                | .error e => .error ⟨.Internal, "failed to parse CA cert: " ++ e⟩
                | .ok caCert =>
                  match generateSerialNumber env with
                  | .error e => .error ⟨.Internal, "failed to generate serial: " ++ e⟩
                  | .ok serialNumber =>
                    match env.createCertificate (mkTemplate csr now serialNumber)
                        caCert csr.publicKey s.caPrivateKey with
                    | .error e =>
                      .error ⟨.Internal, "failed to create certificate: " ++ e⟩
                    | .ok certDER =>
                      .ok ⟨s.caCert, env.pemEncodeToMemory ⟨"CERTIFICATE", certDER⟩⟩

/-- The sentinel errors of pkg/errors plus the wrapping messages
`errors.Wrap` attaches in cmd/main.go.  Constructors carry exactly the
string the wrap attaches. -/
inductive StartupError where
  | errMissingPort
  | errPortOutOfRange
  | errMissingToken
  | errMissingPath (msg : String)
  | errReadFile (msg : String)
  | errPemDecoding
  | errParseCertificate (msg : String)
  | errUnsupportedBlockType (blockType : String)
  | errLoadingCertificate (msg : String)
  | errServerListen (msg : String)
  | errGRPCServerServe (msg : String)
deriving Repr, DecidableEq

/-- The outcomes of the I/O actions `RunE` performs, supplied as inputs:
`os.ReadFile` on the CA certificate path and on the CA key path,
`tls.LoadX509KeyPair` on the server TLS paths (abstract handle), and
`net.Listen` on the port. -/
structure StartupInput where
  caCertRead : Except String Bytes
  caKeyRead : Except String Bytes
  tlsLoad : Except String Nat
  listen : Except String Unit

/-- The private-key `switch block.Type` of `RunE` (cmd/main.go) together
with the `privateKeyErr` check that follows it: a recognized type selects
its decoder and a decoder failure is wrapped as `ErrParseCertificate`;
any other type fails as `ErrUnsupportedBlockType` wrapped with the
offending type string. -/
def parsePrivateKeyByType (env : X509Env) (block : PemBlock) :
    Except StartupError Nat :=
  if block.type = "ED25519 PRIVATE KEY" then
    match env.parsePKCS8PrivateKey block.bytes with
    | .error e => .error (.errParseCertificate e)
    | .ok k => .ok k
  else if block.type = "EC PRIVATE KEY" then
    match env.parseECPrivateKey block.bytes with
    | .error e => .error (.errParseCertificate e)
    | .ok k => .ok k
  else if block.type = "RSA PRIVATE KEY" then
    match env.parsePKCS1PrivateKey block.bytes with
    | .error e => .error (.errParseCertificate e)
    | .ok k => .ok k
  else if block.type = "PRIVATE KEY" then
    match env.parsePKCS8PrivateKey block.bytes with
    | .error e => .error (.errParseCertificate e)
    | .ok k => .ok k
  else
    .error (.errUnsupportedBlockType block.type)

/-- The `RunE` body of cmd/main.go, translated statement by statement up
to the point where the gRPC server is registered and starts serving.
A `.ok` result is the `server.Server` value the gRPC server serves with:
success here means the service begins serving requests.  Note the CA
certificate bytes are only read, never PEM-decoded or parsed here. -/
def runE (env : X509Env) (inp : StartupInput) (token : String) :
    Except StartupError Server :=
  match inp.caCertRead with
  | .error e => .error (.errReadFile ("failed to read CA certificate: " ++ e))
  | .ok caCertPEM =>
    match inp.caKeyRead with
    | .error e => .error (.errReadFile ("failed to read CA private key: " ++ e))
    | .ok caKeyPEM =>
      match env.pemDecode caKeyPEM with
      | none => .error .errPemDecoding
      | some block =>
        match parsePrivateKeyByType env block with
        | .error e => .error e
        | .ok caPrivateKey =>
          match inp.tlsLoad with
          | .error e => .error (.errLoadingCertificate e)
          | .ok _ =>
            match inp.listen with
            | .error e => .error (.errServerListen e)
            | .ok _ => .ok ⟨caCertPEM, caPrivateKey, token⟩

/-- The fixed DNS SAN list of `generateServerCert` (the bootstrap routine
documented in the README). -/
def serverCertDNSNames : List String :=
  ["talos-csr-signer",
   "talos-csr-signer.default",
   "talos-csr-signer.default.svc",
   "talos-csr-signer.default.svc.cluster.local"]

/-- The IP SAN list of `generateServerCert`: starts from
`[net.ParseIP("127.0.0.1")]` and appends each configured literal that
parses (Go `nil` results, modelled as `[]`, are skipped). -/
def serverCertIPAddresses (env : X509Env) (serverIPs : List String) : List Bytes :=
  serverIPs.foldl
    (fun acc ipStr =>
      let ip := env.parseIP ipStr
      if ip ≠ [] then acc ++ [ip] else acc)
    [env.parseIP "127.0.0.1"]

/-- The certificate template of `generateServerCert`.  The Go literal
sets only serial, the validity window, key usages, IP addresses and DNS
names; every other field is the Go zero value (empty subject, no basic
constraints, not a CA). -/
def serverCertTemplate (env : X509Env) (now serial : Nat)
    (serverIPs : List String) : CertificateData :=
  { serialNumber := serial
    subject := ⟨""⟩
    notBefore := now
    notAfter := now + oneYear
    keyUsage := keyUsageDigitalSignature ||| keyUsageKeyEncipherment
    extKeyUsage := [.serverAuth]
    basicConstraintsValid := false
    isCA := false
    dnsNames := serverCertDNSNames
    ipAddresses := serverCertIPAddresses env serverIPs }

/-- `generateServerCert` (bootstrap of the service's own TLS identity,
from the README): fresh P-256 key pair, fresh serial, template with
loopback plus configured IP SANs and the fixed DNS SANs, CA-signed,
chained with the CA PEM, paired with the marshalled key.  The `.ok`
value is the abstract `tls.Certificate` handle. -/
def generateServerCert (env : X509Env) (now : Nat) (caCertPEM : Bytes)
    (caPrivateKey : Nat) (serverIPs : List String) : Except String Nat :=
  match env.ecdsaGenerateKey with
  | .error e => .error ("failed to generate private key: " ++ e)
  | .ok (pub, priv) =>
    match generateSerialNumber env with
    | .error e => .error ("failed to generate serial number: " ++ e)
    | .ok serial =>
      match env.pemDecode caCertPEM with
      | none => .error "failed to decode CA certificate"
      | some caBlock =>
        match env.parseCertificate caBlock.bytes with
        | .error e => .error ("failed to parse CA certificate: " ++ e)
        | .ok caCert =>
          match env.createCertificate (serverCertTemplate env now serial serverIPs)
              caCert pub caPrivateKey with
          | .error e => .error ("failed to create certificate: " ++ e)
          | .ok certDER =>
            let certChainPEM :=
              env.pemEncodeToMemory ⟨"CERTIFICATE", certDER⟩ ++ caCertPEM
            match env.marshalECPrivateKey priv with
            | .error e => .error ("failed to marshal private key: " ++ e)
            | .ok keyBytes =>
              match env.x509KeyPair certChainPEM
                  (env.pemEncodeToMemory ⟨"EC PRIVATE KEY", keyBytes⟩) with
              | .error e => .error ("failed to load key pair: " ++ e)
              | .ok cert => .ok cert

/-! ### Concrete library environments for witnesses and counterexamples

`okEnv` is a small concrete `X509Env` that realises, on a handful of tagged
byte strings, behaviours the Go libraries exhibit on real inputs:
`[1]` is a well-formed CSR PEM whose DER payload `[2]` parses to `testCSR`;
`[7]` is a well-formed CA certificate PEM; `[20]` is an EC private-key PEM;
`[30]` is a PEM whose declared block type is not `CERTIFICATE REQUEST` but
whose payload is the same valid CSR DER `[2]` (real `pem.Decode` returns
such a block and real `ParseCertificateRequest` accepts its payload);
`[40]` is a PEM with declared type `DSA PRIVATE KEY`; `[99]` and everything
else is not PEM at all.  `randInt` honours the `rand.Int` contract
(result below the exclusive bound). -/

/-- A sample parsed CSR: subject `CN=apid`, one DNS SAN, one IP SAN. -/
def testCSR : CertificateRequestData :=
  ⟨⟨"apid"⟩, ["apid.local"], [[10, 0, 0, 5]], 42⟩

/-- A sample parsed CA certificate. -/
def testCACert : CertificateData :=
  ⟨1, ⟨"talos-ca"⟩, 0, 0, 0, [], false, true, [], []⟩

def okEnv : X509Env where
  pemDecode := fun b =>
    if b = [1] then some ⟨"CERTIFICATE REQUEST", [2]⟩
    else if b = [7] then some ⟨"CERTIFICATE", [8]⟩
    else if b = [20] then some ⟨"EC PRIVATE KEY", [21]⟩
    else if b = [30] then some ⟨"GARBAGE TYPE", [2]⟩
    else if b = [40] then some ⟨"DSA PRIVATE KEY", [41]⟩
    else none
  parseCertificateRequest := fun b =>
    if b = [2] then .ok testCSR else .error "asn1 structure error"
  checkSignature := fun _ => .ok ()
  parseCertificate := fun b =>
    if b = [8] then .ok testCACert else .error "not a certificate"
  createCertificate := fun _ _ _ _ => .ok [9]
  pemEncodeToMemory := fun bl => 100 :: bl.bytes
  randInt := fun n => if 5 < n then .ok 5 else .error "short entropy"
  parsePKCS8PrivateKey := fun _ => .ok 1
  parseECPrivateKey := fun b => if b = [21] then .ok 2 else .error "bad EC key"
  parsePKCS1PrivateKey := fun _ => .ok 3
  parseIP := fun v =>
    if v = "127.0.0.1" then [127, 0, 0, 1]
    else if v = "10.10.10.101" then [10, 10, 10, 101]
    else []
  ecdsaGenerateKey := .ok (11, 12)
  marshalECPrivateKey := fun _ => .ok [13]
  x509KeyPair := fun _ _ => .ok 14

/-- A sample server: CA PEM `[7]`, key handle `3`, a fixed token. -/
def testServer : Server := ⟨[7], 3, "secret-token"⟩

/-- Metadata carrying the matching token. -/
def goodMD : MD := [("token", ["secret-token"])]

/-- `okEnv.randInt` meets the `rand.Int` library contract. -/
theorem okEnv_randInt_lt (n r : Nat) (h : okEnv.randInt n = .ok r) : r < n := by
  simp only [okEnv] at h
  split at h
  · cases h
    assumption
  · cases h

/-! ### C1 -/

/-- C1: when a presented token differs from the configured token, the
handler answers `Unauthenticated: invalid token` — for every library
environment, every clock and every request body, so no CSR decoding,
parsing or diagnostics can reach the caller. -/
theorem certificate_auth_failure_precedes_csr (env : X509Env) (now : Nat)
    (s : Server) (md : MD) (t : String) (ts : List String)
    (req : CertificateRequestMsg)
    (hmd : mdGet md "token" = t :: ts) (hne : t ≠ s.validToken) :
    Server.Certificate env now s (some md) req =
      .error ⟨.Unauthenticated, "invalid token"⟩ := by
  simp only [Server.Certificate, hmd]
  simp [hne]

/-- C1 witness: a wrong token with a well-formed CSR body still gets the
authentication failure. -/
theorem certificate_auth_failure_precedes_csr_witness :
    mdGet [("token", ["wrong"])] "token" = ["wrong"] ∧
    ("wrong" : String) ≠ testServer.validToken ∧
    Server.Certificate okEnv 0 testServer (some [("token", ["wrong"])]) ⟨[1]⟩ =
      .error ⟨.Unauthenticated, "invalid token"⟩ :=
  ⟨by decide, by decide,
    certificate_auth_failure_precedes_csr okEnv 0 testServer _ "wrong" [] ⟨[1]⟩
      (by decide) (by decide)⟩

/-! ### C4 -/

/-- C4: a presented token authenticates exactly when it equals the
configured token: any other string — prefixes, case variants, partial
matches included — fails as `Unauthenticated: invalid token`, and an
equal token never produces an `Unauthenticated` failure of any kind. -/
theorem token_exact_match (env : X509Env) (now : Nat) (s : Server)
    (md : MD) (t : String) (ts : List String) (req : CertificateRequestMsg)
    (hmd : mdGet md "token" = t :: ts) :
    (t ≠ s.validToken →
      Server.Certificate env now s (some md) req =
        .error ⟨.Unauthenticated, "invalid token"⟩) ∧
    (t = s.validToken →
      ∀ m, Server.Certificate env now s (some md) req ≠
        .error ⟨.Unauthenticated, m⟩) := by
  constructor
  · intro hne
    simp only [Server.Certificate, hmd]
    simp [hne]
  · intro heq m
    subst heq
    simp only [Server.Certificate, hmd]
    rw [if_neg (by simp)]
    repeat' split
    all_goals simp

/-- C4 witness: a caseized variant of the token is rejected, the exact
token never yields an authentication failure. -/
theorem token_exact_match_witness :
    mdGet [("token", ["SECRET-TOKEN"])] "token" = ["SECRET-TOKEN"] ∧
    (("SECRET-TOKEN" : String) ≠ testServer.validToken →
      Server.Certificate okEnv 0 testServer
          (some [("token", ["SECRET-TOKEN"])]) ⟨[1]⟩ =
        .error ⟨.Unauthenticated, "invalid token"⟩) :=
  ⟨by decide,
    (token_exact_match okEnv 0 testServer [("token", ["SECRET-TOKEN"])]
      "SECRET-TOKEN" [] ⟨[1]⟩ (by decide)).1⟩

/-! ### C2 -/

/-- C2: an authenticated request whose CSR decodes and parses but whose
self-signature check fails is answered `InvalidArgument: invalid CSR
signature: ...`; the conclusion holds for every CA-certificate parser `g`,
serial generator `r` and signer `f`, so the CA re-derivation, serial
generation and issuance steps are unreachable. -/
theorem invalid_csr_signature_rejected (env : X509Env)
    (g : Bytes → Except String CertificateData)
    (r : Nat → Except String Nat)
    (f : CertificateData → CertificateData → Nat → Nat → Except String Bytes)
    (now : Nat) (s : Server) (md : MD) (ts : List String)
    (req : CertificateRequestMsg) (block : PemBlock)
    (csr : CertificateRequestData) (e : String)
    (hmd : mdGet md "token" = s.validToken :: ts)
    (hpd : env.pemDecode req.csr = some block)
    (hpc : env.parseCertificateRequest block.bytes = .ok csr)
    (hsig : env.checkSignature csr = .error e) :
    Server.Certificate
        { env with parseCertificate := g, randInt := r, createCertificate := f }
        now s (some md) req =
      .error ⟨.InvalidArgument, "invalid CSR signature: " ++ e⟩ := by
  simp only [Server.Certificate, hmd]
  rw [if_neg (by simp)]
  simp [hpd, hpc, hsig]

/-- C2 witness: a correctly formed CSR with a broken self-signature is
rejected even with a valid token, for a signer that would happily sign. -/
theorem invalid_csr_signature_rejected_witness :
    (let badSigEnv :=
      { okEnv with checkSignature := fun _ => .error "ECDSA verification failure" }
    Server.Certificate badSigEnv 0 testServer (some goodMD) ⟨[1]⟩ =
      .error ⟨.InvalidArgument,
        "invalid CSR signature: ECDSA verification failure"⟩) :=
  invalid_csr_signature_rejected
    { okEnv with checkSignature := fun _ => .error "ECDSA verification failure" }
    okEnv.parseCertificate okEnv.randInt okEnv.createCertificate
    0 testServer goodMD [] ⟨[1]⟩ ⟨"CERTIFICATE REQUEST", [2]⟩ testCSR
    "ECDSA verification failure" (by rfl) (by rfl) (by rfl) (by rfl)

/-! ### C10 -/

/-- C10: every handler invocation yields either a full response — the
configured CA bytes unchanged plus the PEM-encoded freshly signed leaf —
or an error status carrying no certificate payload at all (the Go
function returns `nil` for the response on every error path). -/
theorem response_all_or_nothing (env : X509Env) (now : Nat) (s : Server)
    (ctx : Option MD) (req : CertificateRequestMsg) :
    (∃ st, Server.Certificate env now s ctx req = .error st) ∨
    (∃ resp certDER,
      Server.Certificate env now s ctx req = .ok resp ∧
      resp.ca = s.caCert ∧
      resp.crt = env.pemEncodeToMemory ⟨"CERTIFICATE", certDER⟩) := by
  cases h : Server.Certificate env now s ctx req with
  | error st => exact .inl ⟨st, rfl⟩
  | ok resp =>
    unfold Server.Certificate at h
    repeat' split at h
    any_goals exact Except.noConfusion h
    injection h with h2
    subst h2
    exact .inr ⟨_, _, rfl, rfl, rfl⟩

/-! ### C3 -/

/-- C3: every successful issuance went through `mkTemplate`: the signed
template carries the freshly drawn random serial (below `2 ^ 128`, given
the `rand.Int` contract), `notBefore` at the call's wall-clock reading,
`notAfter` exactly 365 days later, key usages digital-signature and
key-encipherment only, extended key usage server-auth only, valid basic
constraints with `isCA = false`, and subject, DNS names and IP addresses
verbatim from the parsed CSR. -/
theorem issuance_template_fields (env : X509Env) (now : Nat) (s : Server)
    (ctx : Option MD) (req : CertificateRequestMsg) (resp : CertificateResponse)
    (hrand : ∀ n r, env.randInt n = .ok r → r < n)
    (hok : Server.Certificate env now s ctx req = .ok resp) :
    ∃ block csr caBlock caCert serial certDER,
      env.pemDecode req.csr = some block ∧
      env.parseCertificateRequest block.bytes = .ok csr ∧
      env.checkSignature csr = .ok () ∧
      env.pemDecode s.caCert = some caBlock ∧
      env.parseCertificate caBlock.bytes = .ok caCert ∧
      env.randInt (2 ^ 128) = .ok serial ∧
      serial < 2 ^ 128 ∧
      env.createCertificate (mkTemplate csr now serial) caCert
          csr.publicKey s.caPrivateKey = .ok certDER ∧
      resp = ⟨s.caCert, env.pemEncodeToMemory ⟨"CERTIFICATE", certDER⟩⟩ ∧
      mkTemplate csr now serial =
        { serialNumber := serial
          subject := csr.subject
          notBefore := now
          notAfter := now + 365 * 24 * 60 * 60 * 1000000000
          keyUsage := keyUsageDigitalSignature ||| keyUsageKeyEncipherment
          extKeyUsage := [ExtKeyUsage.serverAuth]
          basicConstraintsValid := true
          isCA := false
          dnsNames := csr.dnsNames
          ipAddresses := csr.ipAddresses } := by
  unfold Server.Certificate at hok
  repeat' split at hok
  any_goals exact Except.noConfusion hok
  injection hok with h2
  subst h2
  rename_i bk block hpd p csr hpc u a hsig bca caBlock hca pc caCert hpcert r serial hser c certDER hder
  exact ⟨_, _, _, _, _, _, hpd, hpc, hsig, hca, hpcert, hser,
    hrand _ _ hser, hder, rfl, rfl⟩

/-- C3 witness: a concrete successful issuance through `okEnv`. -/
theorem issuance_template_fields_witness :
    (∀ n r, okEnv.randInt n = .ok r → r < n) ∧
    Server.Certificate okEnv 0 testServer (some goodMD) ⟨[1]⟩ =
      .ok ⟨[7], [100, 9]⟩ ∧
    (∃ block csr caBlock caCert serial certDER,
      okEnv.pemDecode [1] = some block ∧
      okEnv.parseCertificateRequest block.bytes = .ok csr ∧
      okEnv.checkSignature csr = .ok () ∧
      okEnv.pemDecode testServer.caCert = some caBlock ∧
      okEnv.parseCertificate caBlock.bytes = .ok caCert ∧
      okEnv.randInt (2 ^ 128) = .ok serial ∧
      serial < 2 ^ 128 ∧
      okEnv.createCertificate (mkTemplate csr 0 serial) caCert
          csr.publicKey testServer.caPrivateKey = .ok certDER ∧
      (⟨[7], [100, 9]⟩ : CertificateResponse) =
        ⟨testServer.caCert, okEnv.pemEncodeToMemory ⟨"CERTIFICATE", certDER⟩⟩ ∧
      mkTemplate csr 0 serial =
        { serialNumber := serial
          subject := csr.subject
          notBefore := 0
          notAfter := 0 + 365 * 24 * 60 * 60 * 1000000000
          keyUsage := keyUsageDigitalSignature ||| keyUsageKeyEncipherment
          extKeyUsage := [ExtKeyUsage.serverAuth]
          basicConstraintsValid := true
          isCA := false
          dnsNames := csr.dnsNames
          ipAddresses := csr.ipAddresses }) :=
  ⟨okEnv_randInt_lt, by rfl,
    issuance_template_fields okEnv 0 testServer (some goodMD) ⟨[1]⟩
      ⟨[7], [100, 9]⟩ okEnv_randInt_lt (by rfl)⟩

/-! ### C5 (corrected) -/

/-- C5 counterexample: with the side-channel metadata entirely absent
the handler's message is `missing metadata`, not the claimed
`missing token`. -/
theorem missing_metadata_message_cex :
    Server.Certificate okEnv 0 testServer none ⟨[1]⟩ =
      .error ⟨.Unauthenticated, "missing metadata"⟩ ∧
    Server.Certificate okEnv 0 testServer none ⟨[1]⟩ ≠
      .error ⟨.Unauthenticated, "missing token"⟩ := by
  refine ⟨rfl, fun h => ?_⟩
  rw [show Server.Certificate okEnv 0 testServer none ⟨[1]⟩ =
      .error ⟨.Unauthenticated, "missing metadata"⟩ from rfl] at h
  injection h with h2
  injection h2 with h3 h4
  exact absurd h4 (by decide)

/-- C5 amended: both absences are `Unauthenticated` failures, but with
different messages — absent metadata fails as `missing metadata`, while
metadata lacking the token field fails as `missing token`. -/
theorem missing_token_messages (env : X509Env) (now : Nat) (s : Server)
    (md : MD) (req : CertificateRequestMsg)
    (hmd : mdGet md "token" = []) :
    Server.Certificate env now s none req =
      .error ⟨.Unauthenticated, "missing metadata"⟩ ∧
    Server.Certificate env now s (some md) req =
      .error ⟨.Unauthenticated, "missing token"⟩ := by
  exact ⟨rfl, by simp only [Server.Certificate, hmd]⟩

/-- C5 amended witness: metadata present but without the token field. -/
theorem missing_token_messages_witness :
    mdGet [("alt", ["v"])] "token" = [] ∧
    Server.Certificate okEnv 0 testServer none ⟨[1]⟩ =
      .error ⟨.Unauthenticated, "missing metadata"⟩ ∧
    Server.Certificate okEnv 0 testServer (some [("alt", ["v"])]) ⟨[1]⟩ =
      .error ⟨.Unauthenticated, "missing token"⟩ :=
  ⟨by decide,
    missing_token_messages okEnv 0 testServer [("alt", ["v"])] ⟨[1]⟩ (by decide)⟩

/-! ### C6 (corrected) -/

/-- Inversion of a successful startup: what `RunE` actually established.
Note there is no condition on the CA certificate bytes beyond the file
read having succeeded. -/
theorem runE_ok_inv (env : X509Env) (inp : StartupInput) (token : String)
    (srv : Server) (h : runE env inp token = .ok srv) :
    ∃ caKeyPEM block k tc,
      inp.caCertRead = .ok srv.caCert ∧
      inp.caKeyRead = .ok caKeyPEM ∧
      env.pemDecode caKeyPEM = some block ∧
      parsePrivateKeyByType env block = .ok k ∧
      inp.tlsLoad = .ok tc ∧
      inp.listen = .ok () ∧
      srv = ⟨srv.caCert, k, token⟩ := by
  unfold runE at h
  repeat' split at h
  any_goals exact Except.noConfusion h
  injection h with h2
  subst h2
  rename_i a cacert hcacert b cakey hcakey c blk hblk d k hk e tc htc f u hli
  exact ⟨_, _, _, _, hcacert, hcakey, hblk, hk, htc, hli, rfl⟩

/-- C6 counterexample: startup succeeds — the service reaches serving —
with CA certificate bytes `[99]` that do not decode as PEM at all. -/
theorem ca_parse_not_vetted_cex :
    okEnv.pemDecode [99] = none ∧
    runE okEnv ⟨.ok [99], .ok [20], .ok 0, .ok ()⟩ "secret-token" =
      .ok ⟨[99], 2, "secret-token"⟩ :=
  ⟨rfl, rfl⟩

/-- C6 amended: startup never examines the CA certificate bytes beyond
reading the file — a startup that succeeded would also have succeeded
with any other CA bytes — and an undecodable CA certificate surfaces
per-request as `Internal: failed to decode CA certificate` from the
Certificate handler. -/
theorem ca_parse_deferred_internal (env : X509Env) (inp : StartupInput)
    (token : String) (srv : Server) (b : Bytes) (now : Nat) (md : MD)
    (ts : List String) (req : CertificateRequestMsg) (block : PemBlock)
    (csr : CertificateRequestData)
    (hrun : runE env inp token = .ok srv)
    (hca : env.pemDecode srv.caCert = none)
    (hmd : mdGet md "token" = srv.validToken :: ts)
    (hpd : env.pemDecode req.csr = some block)
    (hpc : env.parseCertificateRequest block.bytes = .ok csr)
    (hsig : env.checkSignature csr = .ok ()) :
    (∃ k, runE env { inp with caCertRead := .ok b } token = .ok ⟨b, k, token⟩) ∧
    Server.Certificate env now srv (some md) req =
      .error ⟨.Internal, "failed to decode CA certificate"⟩ := by
  obtain ⟨caKeyPEM, blk, k, tc, h1, h2, h3, h4, h5, h6, h7⟩ :=
    runE_ok_inv env inp token srv hrun
  constructor
  · refine ⟨k, ?_⟩
    simp only [runE, h2, h3, h4, h5, h6]
  · simp only [Server.Certificate, hmd]
    rw [if_neg (by simp)]
    simp [hpd, hpc, hsig, hca]

/-- C6 amended witness: concrete startup with undecodable CA bytes,
followed by a fully authenticated, well-formed request that draws the
Internal error. -/
theorem ca_parse_deferred_internal_witness :
    runE okEnv ⟨.ok [99], .ok [20], .ok 0, .ok ()⟩ "secret-token" =
      .ok ⟨[99], 2, "secret-token"⟩ ∧
    okEnv.pemDecode [99] = none ∧
    ((∃ k, runE okEnv ⟨.ok [123], .ok [20], .ok 0, .ok ()⟩ "secret-token" =
        .ok ⟨[123], k, "secret-token"⟩) ∧
    Server.Certificate okEnv 0 ⟨[99], 2, "secret-token"⟩ (some goodMD) ⟨[1]⟩ =
      .error ⟨.Internal, "failed to decode CA certificate"⟩) :=
  ⟨rfl, rfl,
    ca_parse_deferred_internal okEnv ⟨.ok [99], .ok [20], .ok 0, .ok ()⟩
      "secret-token" ⟨[99], 2, "secret-token"⟩ [123] 0 goodMD [] ⟨[1]⟩
      ⟨"CERTIFICATE REQUEST", [2]⟩ testCSR
      (by rfl) (by rfl) (by rfl) (by rfl) (by rfl) (by rfl)⟩

/-! ### C7 (corrected) -/

/-- C7 counterexample: a PEM block whose declared type is not
`CERTIFICATE REQUEST` but whose payload is valid CSR DER (`okEnv` maps
`[30]` to such a block, as real `pem.Decode` does for a mislabelled PEM)
is not rejected as a decode failure — the handler issues a certificate
for it. -/
theorem wrong_block_type_issued_cex :
    okEnv.pemDecode [30] = some ⟨"GARBAGE TYPE", [2]⟩ ∧
    ("GARBAGE TYPE" : String) ≠ "CERTIFICATE REQUEST" ∧
    Server.Certificate okEnv 0 testServer (some goodMD) ⟨[30]⟩ =
      .ok ⟨[7], [100, 9]⟩ :=
  ⟨rfl, by decide, rfl⟩

/-- C7 amended: for authenticated requests, a body `pem.Decode` rejects
(empty bytes and non-PEM bytes are such inputs) fails as
`InvalidArgument: failed to decode PEM CSR` and never crashes or issues;
but the declared block type is never examined: a block of any type —
wrong ones included — proceeds to CSR parsing of its payload, failing as
`InvalidArgument: failed to parse CSR` only when the payload is not a
parseable CSR. -/
theorem pem_decode_failure_and_type_ignored (env : X509Env) (now : Nat)
    (s : Server) (md : MD) (ts : List String) (req : CertificateRequestMsg)
    (hmd : mdGet md "token" = s.validToken :: ts) :
    (env.pemDecode req.csr = none →
      Server.Certificate env now s (some md) req =
        .error ⟨.InvalidArgument, "failed to decode PEM CSR"⟩) ∧
    (∀ block e, env.pemDecode req.csr = some block →
      env.parseCertificateRequest block.bytes = .error e →
      Server.Certificate env now s (some md) req =
        .error ⟨.InvalidArgument, "failed to parse CSR: " ++ e⟩) := by
  constructor
  · intro hpd
    simp only [Server.Certificate, hmd]
    rw [if_neg (by simp)]
    simp [hpd]
  · intro block e hpd hpc
    simp only [Server.Certificate, hmd]
    rw [if_neg (by simp)]
    simp [hpd, hpc]

/-- C7 amended witness: non-PEM bytes `[99]` draw the decode failure;
the wrong-type block over non-CSR payload draws the parse failure. -/
theorem pem_decode_failure_and_type_ignored_witness :
    mdGet goodMD "token" = testServer.validToken :: [] ∧
    Server.Certificate okEnv 0 testServer (some goodMD) ⟨[99]⟩ =
      .error ⟨.InvalidArgument, "failed to decode PEM CSR"⟩ :=
  ⟨by decide,
    (pem_decode_failure_and_type_ignored okEnv 0 testServer goodMD [] ⟨[99]⟩
      (by decide)).1 (by rfl)⟩

/-! ### C8 -/

/-- C8: an unrecognized CA private-key PEM block type fails startup with
`ErrUnsupportedBlockType` carrying the offending type string verbatim,
while each of the four recognized types routes to its own decoder — a
failure of exactly that decoder is what startup reports, wrapped as
`ErrParseCertificate`. -/
theorem key_type_switch (env : X509Env) (inp : StartupInput) (token : String)
    (caCertPEM caKeyPEM : Bytes) (block : PemBlock)
    (h1 : inp.caCertRead = .ok caCertPEM)
    (h2 : inp.caKeyRead = .ok caKeyPEM)
    (h3 : env.pemDecode caKeyPEM = some block) :
    (block.type ≠ "ED25519 PRIVATE KEY" → block.type ≠ "EC PRIVATE KEY" →
      block.type ≠ "RSA PRIVATE KEY" → block.type ≠ "PRIVATE KEY" →
      runE env inp token = .error (.errUnsupportedBlockType block.type)) ∧
    (block.type = "ED25519 PRIVATE KEY" →
      ∀ e, env.parsePKCS8PrivateKey block.bytes = .error e →
        runE env inp token = .error (.errParseCertificate e)) ∧
    (block.type = "EC PRIVATE KEY" →
      ∀ e, env.parseECPrivateKey block.bytes = .error e →
        runE env inp token = .error (.errParseCertificate e)) ∧
    (block.type = "RSA PRIVATE KEY" →
      ∀ e, env.parsePKCS1PrivateKey block.bytes = .error e →
        runE env inp token = .error (.errParseCertificate e)) ∧
    (block.type = "PRIVATE KEY" →
      ∀ e, env.parsePKCS8PrivateKey block.bytes = .error e →
        runE env inp token = .error (.errParseCertificate e)) := by
  refine ⟨?_, ?_, ?_, ?_, ?_⟩
  · intro ha hb hc hd
    simp only [runE, h1, h2, h3, parsePrivateKeyByType]
    rw [if_neg ha, if_neg hb, if_neg hc, if_neg hd]
  · intro hty e he
    simp only [runE, h1, h2, h3, parsePrivateKeyByType, hty]
    simp [he]
  · intro hty e he
    simp only [runE, h1, h2, h3, parsePrivateKeyByType, hty]
    simp [he]
  · intro hty e he
    simp only [runE, h1, h2, h3, parsePrivateKeyByType, hty]
    simp [he]
  · intro hty e he
    simp only [runE, h1, h2, h3, parsePrivateKeyByType, hty]
    simp [he]

/-- C8 witness: a `DSA PRIVATE KEY` block fails startup naming that exact
type string. -/
theorem key_type_switch_witness :
    okEnv.pemDecode [40] = some ⟨"DSA PRIVATE KEY", [41]⟩ ∧
    runE okEnv ⟨.ok [99], .ok [40], .ok 0, .ok ()⟩ "tok" =
      .error (.errUnsupportedBlockType "DSA PRIVATE KEY") :=
  ⟨rfl,
    (key_type_switch okEnv ⟨.ok [99], .ok [40], .ok 0, .ok ()⟩ "tok" [99] [40]
      ⟨"DSA PRIVATE KEY", [41]⟩ rfl rfl rfl).1
      (by decide) (by decide) (by decide) (by decide)⟩

/-! ### C9 -/

/-- The append-only IP loop of `generateServerCert` characterised as a
`filterMap` after the seed list. -/
theorem foldl_append_parsed (g : String → Bytes) (l : List String)
    (acc : List Bytes) :
    l.foldl (fun a v => if g v ≠ [] then a ++ [g v] else a) acc =
      acc ++ l.filterMap (fun v => if g v = [] then none else some (g v)) := by
  induction l generalizing acc with
  | nil => simp
  | cons v l ih =>
    simp only [List.foldl_cons]
    rw [ih]
    by_cases h : g v = []
    · simp [h, List.filterMap_cons]
    · simp [h, List.filterMap_cons]

/-- C9: every successful bootstrap signs a template whose IP SAN list is
`net.ParseIP("127.0.0.1")` followed by exactly the configured literals
that parse (unparseable entries skipped, not fatal), and whose DNS SAN
list is the fixed cluster-internal service-name set for every
configuration, the empty one included. -/
theorem server_cert_sans (env : X509Env) (now : Nat) (caCertPEM : Bytes)
    (caKey : Nat) (ips : List String) (cert : Nat)
    (hok : generateServerCert env now caCertPEM caKey ips = .ok cert) :
    ∃ pub priv serial caBlock caCert certDER,
      env.ecdsaGenerateKey = .ok (pub, priv) ∧
      env.randInt (2 ^ 128) = .ok serial ∧
      env.pemDecode caCertPEM = some caBlock ∧
      env.parseCertificate caBlock.bytes = .ok caCert ∧
      env.createCertificate (serverCertTemplate env now serial ips) caCert
        pub caKey = .ok certDER ∧
      (serverCertTemplate env now serial ips).ipAddresses =
        env.parseIP "127.0.0.1" ::
          ips.filterMap (fun v =>
            if env.parseIP v = [] then none else some (env.parseIP v)) ∧
      env.parseIP "127.0.0.1" ∈ (serverCertTemplate env now serial ips).ipAddresses ∧
      (∀ v ∈ ips, env.parseIP v ≠ [] →
        env.parseIP v ∈ (serverCertTemplate env now serial ips).ipAddresses) ∧
      (serverCertTemplate env now serial ips).dnsNames = serverCertDNSNames := by
  have hip : ∀ serial : Nat,
      (serverCertTemplate env now serial ips).ipAddresses =
        env.parseIP "127.0.0.1" ::
          ips.filterMap (fun v =>
            if env.parseIP v = [] then none else some (env.parseIP v)) := by
    intro serial
    show serverCertIPAddresses env ips = _
    unfold serverCertIPAddresses
    rw [foldl_append_parsed]
    rfl
  unfold generateServerCert at hok
  repeat' split at hok
  any_goals exact Except.noConfusion hok
  rename_i a pub priv hkey b serial hser c caBlock hca d caCert hpc e certDER hder f keyBytes hmar
  refine ⟨pub, priv, serial, caBlock, caCert, certDER,
    hkey, hser, hca, hpc, hder, hip serial, ?_, ?_, rfl⟩
  · rw [hip serial]
    exact List.mem_cons_self _ _
  · intro v hv hne
    rw [hip serial]
    refine List.mem_cons_of_mem _ (List.mem_filterMap.mpr ⟨v, hv, ?_⟩)
    simp [hne]

/-- C9 witness: configured IPs `["10.10.10.101", "bogus"]` — the literal
parses, the bogus entry is skipped, loopback is present, the DNS list is
the fixed one, and bootstrap still succeeds. -/
theorem server_cert_sans_witness :
    generateServerCert okEnv 0 [7] 3 ["10.10.10.101", "bogus"] = .ok 14 ∧
    (∃ pub priv serial caBlock caCert certDER,
      okEnv.ecdsaGenerateKey = .ok (pub, priv) ∧
      okEnv.randInt (2 ^ 128) = .ok serial ∧
      okEnv.pemDecode [7] = some caBlock ∧
      okEnv.parseCertificate caBlock.bytes = .ok caCert ∧
      okEnv.createCertificate
        (serverCertTemplate okEnv 0 serial ["10.10.10.101", "bogus"]) caCert
        pub 3 = .ok certDER ∧
      (serverCertTemplate okEnv 0 serial ["10.10.10.101", "bogus"]).ipAddresses =
        okEnv.parseIP "127.0.0.1" ::
          List.filterMap (fun v =>
            if okEnv.parseIP v = [] then none else some (okEnv.parseIP v))
            ["10.10.10.101", "bogus"] ∧
      okEnv.parseIP "127.0.0.1" ∈
        (serverCertTemplate okEnv 0 serial ["10.10.10.101", "bogus"]).ipAddresses ∧
      (∀ v ∈ ["10.10.10.101", "bogus"], okEnv.parseIP v ≠ [] →
        okEnv.parseIP v ∈
          (serverCertTemplate okEnv 0 serial ["10.10.10.101", "bogus"]).ipAddresses) ∧
      (serverCertTemplate okEnv 0 serial ["10.10.10.101", "bogus"]).dnsNames =
        serverCertDNSNames) :=
  ⟨rfl, server_cert_sans okEnv 0 [7] 3 ["10.10.10.101", "bogus"] 14 (by rfl)⟩

end TalosCsrSigner
